import Mathlib

/-!
Verification of the `linux_c_cpp` repository: a C++ executable (`src/main.cc`)
that constructs a `HelloShared` instance (declared in `include/hello_shared.h`)
and a `HelloStatic` instance (declared in `include/hello_static.h`), invokes
each instance's `sayHello()` method, prints a literal line via `std::cout` and
`std::endl`, and returns 0.

Standard output is modelled as a buffered stream (`OStream`): `std::cout <<`
appends to the pending user-space buffer, and `std::endl` appends a newline
and flushes the buffer to the already-flushed portion.  The two `sayHello`
bodies are compiled into the static/shared library and their source is not
among the repository files; they are modelled from the spec (each writes one
fixed greeting line to standard output).
-/

namespace LinuxCCpp

/-- The state of the C++ `std::cout` stream: bytes already flushed to the
operating system, and bytes sitting in the user-space buffer. -/
structure OStream where
  flushed : String
  pending : String
deriving DecidableEq, Repr

/-- The stream at program start: nothing written. -/
def OStream.empty : OStream := { flushed := "", pending := "" }

/-- `std::cout << t`: append `t` to the user-space buffer. -/
def OStream.write (s : OStream) (t : String) : OStream :=
  { s with pending := s.pending ++ t }

/-- Flushing the stream: the buffered bytes move to the flushed portion. -/
def OStream.flushOut (s : OStream) : OStream :=
  { flushed := s.flushed ++ s.pending, pending := "" }

/-- `std::endl`: write a newline character, then flush. -/
def OStream.endl (s : OStream) : OStream :=
  OStream.flushOut (s.write "\n")

/-- Everything written to the stream so far, flushed or not. -/
def OStream.contents (s : OStream) : String :=
  s.flushed ++ s.pending

/-- Split a character sequence into its lines: the chunks between newline
characters, with the empty chunk after a terminating newline not counted as
a line.  `acc` holds the characters of the current line, in reverse. -/
def splitLinesAux : List Char → List Char → List String
  | [], [] => []
  | [], acc => [String.mk acc.reverse]
  | c :: rest, acc =>
      if c = '\n' then String.mk acc.reverse :: splitLinesAux rest []
      else splitLinesAux rest (c :: acc)

/-- The lines of a raw output string. -/
def stdoutLines (out : String) : List String :=
  splitLinesAux out.toList []

/-- Whether a raw output string ends with a newline character. -/
def endsWithNewline (out : String) : Bool :=
  out.toList.getLast? = some '\n'

/-- `class HelloShared` from `include/hello_shared.h`: no data members. -/
structure HelloShared where
deriving DecidableEq, Repr

/-- `class HelloStatic` from `include/hello_static.h`: no data members. -/
structure HelloStatic where
deriving DecidableEq, Repr

/-- Modelled from the spec: the body of `HelloShared::sayHello` lives in the
shared library and is not among the repository sources (only its declaration
in `include/hello_shared.h` is); per the spec it writes a fixed,
implementation-chosen greeting line to standard output.  The exact text is a
stand-in constant; no claim depends on its particular characters. -/
def helloSharedGreeting : String := "Hello, World from shared library!"

/-- Modelled from the spec: the body of `HelloStatic::sayHello` lives in the
static library and is not among the repository sources (only its declaration
in `include/hello_static.h` is); per the spec it writes a fixed,
implementation-chosen greeting line to standard output.  The exact text is a
stand-in constant; no claim depends on its particular characters. -/
def helloStaticGreeting : String := "Hello, World from static library!"

/-- `HelloShared() = default` on a class with no data members: produces an
instance and has no effect on the output stream. -/
def HelloShared.construct (s : OStream) : HelloShared × OStream :=
  (HelloShared.mk, s)

/-- `HelloStatic() = default` on a class with no data members: produces an
instance and has no effect on the output stream. -/
def HelloStatic.construct (s : OStream) : HelloStatic × OStream :=
  (HelloStatic.mk, s)

/-- Modelled from the spec: `HelloShared::sayHello` writes its fixed greeting
line (text plus newline) to standard output; it reads and writes no instance
state (the class has no data members). -/
def HelloShared.sayHello (_g : HelloShared) (s : OStream) : OStream :=
  s.write (helloSharedGreeting ++ "\n")

/-- Modelled from the spec: `HelloStatic::sayHello` writes its fixed greeting
line (text plus newline) to standard output; it reads and writes no instance
state (the class has no data members). -/
def HelloStatic.sayHello (_g : HelloStatic) (s : OStream) : OStream :=
  s.write (helloStaticGreeting ++ "\n")

/-- The string literal printed by `main` at `src/main.cc:12`. -/
def executableLine : String := "Hello, World from executable!"

/-- `int main()` from `src/main.cc`, as a function of the output stream:
construct `shared_lib`, construct `static_lib`, invoke
`shared_lib.sayHello()`, invoke `static_lib.sayHello()`, print the literal
followed by `std::endl`, return 0. -/
def main (s : OStream) : OStream × Int :=
  let c1 := HelloShared.construct s
  let shared_lib := c1.1
  let s1 := c1.2
  let c2 := HelloStatic.construct s1
  let static_lib := c2.1
  let s2 := c2.2
  let s3 := shared_lib.sayHello s2
  let s4 := static_lib.sayHello s3
  let s5 := ((s4.write executableLine).endl)
  (s5, 0)

/-- One run of the executable.  The process may be started with arbitrary
command-line arguments and environment variables, but `src/main.cc` declares
`int main()` and reads neither; the run yields the full standard-output
string and the exit code. -/
def runProgram (_argv : List String) (_env : List (String × String)) :
    String × Int :=
  ((main OStream.empty).1.contents, (main OStream.empty).2)

/-- The observable operations `main` performs, in source order. -/
inductive Event where
  | constructShared : Event
  | constructStatic : Event
  | invokeSharedSayHello : Event
  | invokeStaticSayHello : Event
  | printExecutableLine : Event
  | returnZero : Event
deriving DecidableEq, Repr

/-- The effect of each operation on the output stream. -/
def step (s : OStream) : Event → OStream
  | Event.constructShared => (HelloShared.construct s).2
  | Event.constructStatic => (HelloStatic.construct s).2
  | Event.invokeSharedSayHello => HelloShared.sayHello HelloShared.mk s
  | Event.invokeStaticSayHello => HelloStatic.sayHello HelloStatic.mk s
  | Event.printExecutableLine => (s.write executableLine).endl
  | Event.returnZero => s

/-- The trace of operations executed by `main` (`src/main.cc:6-13`), one
event per statement in source order. -/
def mainEvents : List Event :=
  [Event.constructShared, Event.constructStatic, Event.invokeSharedSayHello,
   Event.invokeStaticSayHello, Event.printExecutableLine, Event.returnZero]

/-- Run a trace of operations over the output stream. -/
def runEvents (s : OStream) (es : List Event) : OStream :=
  es.foldl step s

/-- Construct a fresh `HelloShared` `n` times in sequence, discarding the
instances, threading the output stream. -/
def constructSharedMany : Nat → OStream → OStream
  | 0, s => s
  | n + 1, s => constructSharedMany n (HelloShared.construct s).2

/-- Construct a fresh `HelloStatic` `n` times in sequence, discarding the
instances, threading the output stream. -/
def constructStaticMany : Nat → OStream → OStream
  | 0, s => s
  | n + 1, s => constructStaticMany n (HelloStatic.construct s).2

/-- The spec's greeter contract, following its words (sections 4.1 and 4.2):
default-constructible (construction has no effect on the stream), and one
greeting operation whose only observable side effect is writing one fixed
greeting line to standard output. -/
def GreeterContract {G : Type} (construct : OStream → G × OStream)
    (sayHello : G → OStream → OStream) : Prop :=
  (∀ s : OStream, (construct s).2 = s) ∧
  ∃ line : String, ∀ (g : G) (s : OStream), sayHello g s = s.write (line ++ "\n")

/-- C1: when the program is run with no arguments, its standard output is
exactly three lines in order: the line emitted by HelloShared's sayHello, the
line emitted by HelloStatic's sayHello, and the literal line
`Hello, World from executable!`. -/
theorem main_stdout_three_fixed_lines :
    stdoutLines (runProgram [] []).1 =
      [helloSharedGreeting, helloStaticGreeting, "Hello, World from executable!"] ∧
    (runProgram [] []).1 =
      helloSharedGreeting ++ "\n" ++ helloStaticGreeting ++ "\n" ++ executableLine ++ "\n" :=
  ⟨by decide, by rfl⟩

/-- C2: the entry point performs exactly, and in this order: construct the
HelloShared instance, construct the HelloStatic instance, invoke
HelloShared's sayHello, invoke HelloStatic's sayHello, print the literal
string, return 0; and running that trace of operations over any stream state
yields exactly the stream `main` produces. -/
theorem main_operation_order :
    mainEvents = [Event.constructShared, Event.constructStatic,
      Event.invokeSharedSayHello, Event.invokeStaticSayHello,
      Event.printExecutableLine, Event.returnZero] ∧
    (∀ s : OStream, runEvents s mainEvents = (main s).1) ∧
    (∀ s : OStream, (main s).2 = 0) :=
  ⟨rfl, fun _ => rfl, fun _ => rfl⟩

/-- C3: for every run of the program (any starting stream state, any
command-line arguments, any environment) the exit code is 0; no other exit
code is ever produced. -/
theorem main_exit_code_zero :
    (∀ s : OStream, (main s).2 = 0) ∧
    (∀ (argv : List String) (env : List (String × String)),
      (runProgram argv env).2 = 0) :=
  ⟨fun _ => rfl, fun _ _ => rfl⟩

/-- C4: constructing either greeter type any number of times produces no
side effect: the output stream is exactly what it was before, until a
sayHello invocation happens. -/
theorem construct_no_side_effect :
    ∀ (n : Nat) (s : OStream),
      constructSharedMany n s = s ∧ constructStaticMany n s = s := by
  intro n
  induction n with
  | zero => exact fun _ => ⟨rfl, rfl⟩
  | succ k ih => exact fun s => ih s

/-- C5: invoking sayHello twice on the same instance emits the identical
line both times: each call appends exactly the instance's fixed greeting
line, with no state accumulated between the two invocations. -/
theorem sayHello_idempotent :
    ∀ (g : HelloShared) (h : HelloStatic) (s : OStream),
      (g.sayHello s).contents = s.contents ++ (helloSharedGreeting ++ "\n") ∧
      (g.sayHello (g.sayHello s)).contents =
        s.contents ++ (helloSharedGreeting ++ "\n") ++ (helloSharedGreeting ++ "\n") ∧
      (h.sayHello s).contents = s.contents ++ (helloStaticGreeting ++ "\n") ∧
      (h.sayHello (h.sayHello s)).contents =
        s.contents ++ (helloStaticGreeting ++ "\n") ++ (helloStaticGreeting ++ "\n") := by
  intro g h s
  refine ⟨?_, ?_, ?_, ?_⟩ <;>
    simp [HelloShared.sayHello, HelloStatic.sayHello, OStream.write,
      OStream.contents, String.append_assoc]

/-- C6: the program's standard output is deterministic: any two runs,
whatever their arguments and environment (none of which the program reads),
produce byte-for-byte identical output (and identical exit codes), and that
output has exactly three lines. -/
theorem main_output_deterministic :
    ∀ (argv1 : List String) (env1 : List (String × String))
      (argv2 : List String) (env2 : List (String × String)),
      runProgram argv1 env1 = runProgram argv2 env2 ∧
      (stdoutLines (runProgram argv1 env1).1).length = 3 := by
  intro a1 e1 a2 e2
  refine ⟨rfl, ?_⟩
  show (stdoutLines (runProgram [] []).1).length = 3
  decide

/-- C7: HelloShared and HelloStatic satisfy the identical greeter contract:
default-constructible with an effect-free constructor, and one no-argument
no-return greeting operation whose only observable side effect is writing
one fixed greeting line to standard output. -/
theorem greeters_identical_contract :
    GreeterContract HelloShared.construct HelloShared.sayHello ∧
    GreeterContract HelloStatic.construct HelloStatic.sayHello :=
  ⟨⟨fun _ => rfl, helloSharedGreeting, fun _ _ => rfl⟩,
   ⟨fun _ => rfl, helloStaticGreeting, fun _ _ => rfl⟩⟩

/-- C8: execution is a single finite linear sequence of operations, exactly
two constructions, two greeting invocations and one print, and it runs to
completion: from any stream state `main` reaches a final stream and exit
code, which running its trace reproduces. -/
theorem main_total_linear_terminating :
    mainEvents.count Event.constructShared = 1 ∧
    mainEvents.count Event.constructStatic = 1 ∧
    mainEvents.count Event.invokeSharedSayHello = 1 ∧
    mainEvents.count Event.invokeStaticSayHello = 1 ∧
    mainEvents.count Event.printExecutableLine = 1 ∧
    mainEvents.length = 6 ∧
    ∀ s : OStream, ∃ (out : OStream) (code : Int),
      main s = (out, code) ∧ runEvents s mainEvents = out := by
  refine ⟨by decide, by decide, by decide, by decide, by decide, by decide, ?_⟩
  intro s
  exact ⟨(main s).1, 0, rfl, rfl⟩

/-- C9: the entry point ends with std::endl, so from any stream state the
buffer is fully flushed when `main` returns (nothing pending), the total
output ends in a newline character, and in particular the run from the empty
stream produces newline-terminated output. -/
theorem main_endl_newline_flush :
    (∀ s : OStream, (main s).1.pending = "" ∧
      ∃ t : String, (main s).1.contents = t ++ "\n") ∧
    endsWithNewline (runProgram [] []).1 = true := by
  refine ⟨?_, by decide⟩
  intro s
  refine ⟨rfl, s.flushed ++ s.pending ++ (helloSharedGreeting ++ "\n") ++
    (helloStaticGreeting ++ "\n") ++ executableLine, ?_⟩
  simp [main, OStream.contents, OStream.endl, OStream.write, OStream.flushOut,
    HelloShared.construct, HelloStatic.construct, HelloShared.sayHello,
    HelloStatic.sayHello, String.append_assoc]

/-- C10: neither greeter class has a data member, so any two instances of
the same class are equal, and sayHello behaves identically whichever
instance it is invoked on. -/
theorem greeters_stateless_indistinguishable :
    (∀ a b : HelloShared, a = b) ∧ (∀ a b : HelloStatic, a = b) ∧
    (∀ (a b : HelloShared) (s : OStream), a.sayHello s = b.sayHello s) ∧
    (∀ (a b : HelloStatic) (s : OStream), a.sayHello s = b.sayHello s) := by
  refine ⟨?_, ?_, ?_, ?_⟩
  · intro a b; cases a; cases b; rfl
  · intro a b; cases a; cases b; rfl
  · intro a b s; rfl
  · intro a b s; rfl

end LinuxCCpp
